import Mathlib

/-!
Verification of the cache/refresh/suppression core of the hal-9001
google_calendar plugin.

The embedding translates the Go source of the plugin into pure Lean
functions.  Conventions:

* `Time` is `Int`, counting nanoseconds (Go `time.Duration` units); the
  zero value of `time.Time` is the instant `0`.  Go's float comparisons
  `age.Minutes() > 10` and `calAge.Hours() > 1.1` are modelled as exact
  rational comparisons, i.e. `age > 10 min` and `calAge > 66 min` in
  nanoseconds.
* The process-wide `configCache` map and the hal KV store are explicit
  association lists threaded through the functions; in-place mutation of
  a `*Config` becomes re-inserting the updated record.
* A Go nil-pointer dereference (looking up an unregistered room id in
  `configCache` and then dereferencing) is modelled as the `none` /
  `.fault` outcome.
* External collaborators (`hal.GetPref`, `time.LoadLocation`,
  `getEvents` i.e. the calendar fetch, `time.ParseDuration`) are fields
  of an `Env` record, left abstract.
-/

namespace GCalPlugin

/-- Time instants and durations in nanoseconds, as in Go `time`. -/
abbrev Time := Int

/-- One minute in nanoseconds (Go `time.Minute`). -/
def minuteNs : Int := 60 * 1000000000

/-- One hour in nanoseconds (Go `time.Hour`). -/
def hourNs : Int := 60 * minuteNs

/-- A calendar entry as used by the plugin (fields of `CalEvent` that the
core reads: `Name`, `Description`, `Start`, `End`). -/
structure CalEvent where
  Name : String
  Description : String
  Start : Time
  End : Time
deriving Repr, DecidableEq

/-- The per-room `Config` struct of the plugin.  `Timezone` is kept as the
identifier string; the mutex is dropped (the embedding is sequential). -/
structure Config where
  RoomId : String
  CalendarId : String
  Timezone : String
  Autoreply : Bool
  AnnounceStart : Bool
  AnnounceEnd : Bool
  CalEvents : List CalEvent
  configTs : Time
  calTs : Time
deriving Repr, DecidableEq

/-- Result of `hal.GetPref`. -/
structure Pref where
  Success : Bool
  Value : String
  Error : String
deriving Repr, DecidableEq

/-- External collaborators of the core, kept abstract:
`getPref roomId key default` is `hal.GetPref` specialised to the
google_calendar plugin, `loadLocation` is `time.LoadLocation` (only its
success/failure matters), `getEvents` is the calendar fetch
(`FetchEvents`), `parseDuration` is `time.ParseDuration` (result in
nanoseconds). -/
structure Env where
  getPref : String → String → String → Pref
  loadLocation : String → Except String Unit
  getEvents : String → Time → Except String (List CalEvent)
  parseDuration : String → Except String Int

/-- Association-list lookup (Go map read `m[k]`; `none` is the zero value,
which for `map[string]*Config` is a nil pointer). -/
def alookup {α : Type} : List (String × α) → String → Option α
  | [], _ => none
  | (k, v) :: rest, key => if k = key then some v else alookup rest key

/-- Association-list update (Go map write / in-place mutation through a
shared pointer). -/
def ainsert {α : Type} : List (String × α) → String → α → List (String × α)
  | [], key, x => [(key, x)]
  | (k, v) :: rest, key, x =>
      if k = key then (k, x) :: rest else (k, v) :: ainsert rest key x

/-- The process-wide `configCache` map from room id to `Config`. -/
abbrev Registry := List (String × Config)

/-- Modelled from the spec: the hal key/value store with TTL semantics
(package `hal`, not under `src/`): `Set(key, value, ttl)` stores the value
with expiry `now + ttl`; `Get(key)` returns the stored value while the
entry is unexpired and the empty string otherwise (the plugin ignores the
error return of `hal.GetKV`). -/
structure KVEntry where
  value : String
  expiresAt : Time
deriving Repr, DecidableEq

/-- The KV store state. -/
abbrev KV := List (String × KVEntry)

/-- `hal.GetKV` at the given instant: empty string when the key is missing
or its TTL has elapsed (suppression is over exactly at the expiry
instant, matching "true for any point strictly before the recorded TTL"). -/
def GetKV (kv : KV) (now : Time) (key : String) : String :=
  match alookup kv key with
  | some e => if now < e.expiresAt then e.value else ""
  | none => ""

/-- `hal.SetKV key value ttl` at the given instant. -/
def SetKV (kv : KV) (now : Time) (key value : String) (ttl : Int) : KV :=
  ainsert kv key ⟨value, now + ttl⟩

/-- `getUserSpamKey(userId, roomId string)` from the source: plain
concatenation of its two arguments.  NOTE: the call site in `handleEvt`
passes `(evt.RoomId, evt.UserId)`, i.e. room id first. -/
def getUserSpamKey (userId roomId : String) : String :=
  "gcal-spam-" ++ userId ++ "-" ++ roomId

/-- `getRoomSpamKey(roomId string)` from the source. -/
def getRoomSpamKey (roomId : String) : String :=
  "gcal-spam-" ++ roomId

/-- The suppression check as `handleEvt` performs it: a notification for
`(userId, roomId)` is suppressed iff either the user-scoped key (built at
the call site as `getUserSpamKey roomId userId`) or the room-scoped key
holds a non-empty value. -/
def shouldSuppress (kv : KV) (now : Time) (userId roomId : String) : Bool :=
  GetKV kv now (getUserSpamKey roomId userId) ≠ "" ∨
    GetKV kv now (getRoomSpamKey roomId) ≠ ""

/-- Go `strconv.ParseBool`. -/
def parseBool (s : String) : Option Bool :=
  if s = "1" ∨ s = "t" ∨ s = "T" ∨ s = "true" ∨ s = "TRUE" ∨ s = "True" then
    some true
  else if s = "0" ∨ s = "f" ∨ s = "F" ∨ s = "false" ∨ s = "FALSE" ∨ s = "False" then
    some false
  else none

/-- `loadBoolPref` from the source: read a pref defaulting to `"false"`,
parse it as a boolean, and fall back to `false` on a parse error. -/
def loadBoolPref (env : Env) (roomId key : String) : Bool :=
  let pref := env.getPref roomId key "false"
  match parseBool pref.Value with
  | some v => v
  | none => false

/-- `DefaultTz` constant from the source. -/
def DefaultTz : String := "America/Los_Angeles"

/-- The message built from `DefaultMsg = "Calendar event: %q"` (Go `%q`
quotes the name). -/
def defaultMsgFor (name : String) : String :=
  "Calendar event: " ++ name.quote

/-- `Config.LoadFromPrefs` from the source (`ReloadConfig` in the spec).
Returns the updated config together with the error, mirroring in-place
mutation plus an error return: on a calendar-id failure nothing has been
applied yet; on a timezone failure the calendar id and the boolean flags
have already been applied but `configTs` has not been advanced; on
success every field is applied and `configTs := now` (the source calls
`time.Now()` there; the embedding passes the evaluation instant in). -/
def Config.LoadFromPrefs (env : Env) (now : Time) (c : Config) :
    Config × Option String :=
  let cidpref := env.getPref c.RoomId "calendar-id" ""
  if cidpref.Success then
    let c1 := { c with CalendarId := cidpref.Value }
    let c2 := { c1 with
      Autoreply := loadBoolPref env c1.RoomId "autoreply"
      AnnounceStart := loadBoolPref env c1.RoomId "announce-start"
      AnnounceEnd := loadBoolPref env c1.RoomId "announce-end" }
    let tzpref := env.getPref c.RoomId "timezone" DefaultTz
    match env.loadLocation tzpref.Value with
    | Except.error e =>
        (c2, some ("Could not load timezone info for " ++ tzpref.Value ++ ": " ++ e))
    | Except.ok _ =>
        ({ c2 with Timezone := tzpref.Value, configTs := now }, none)
  else
    (c, some ("Failed to load calendar-id preference for room " ++ c.RoomId ++
      ": " ++ cidpref.Error))

/-- `getCachedConfig` from the source.  Looks the room up in the registry;
an unregistered room yields `none` (in Go: the map returns a nil
`*Config` which is then dereferenced — a panic).  When the config is
older than 10 minutes (`age.Minutes() > 10`), `LoadFromPrefs` runs and
its error is DISCARDED (line `c.LoadFromPrefs()` ignores the return).
The boolean records whether a reload was invoked. -/
def getCachedConfig (env : Env) (reg : Registry) (roomId : String)
    (now : Time) : Option (Config × Bool) :=
  match alookup reg roomId with
  | none => none
  | some c =>
      if now - c.configTs > 10 * minuteNs then
        some ((c.LoadFromPrefs env now).1, true)
      else
        some (c, false)

/-- `Config.getCachedCalEvents` from the source (the lazy read-path
refresh).  When the cache is older than 1.1 hours = 66 minutes
(`calAge.Hours() > 1.1`), fetch synchronously: on failure return the
error and leave the config untouched, on success commit the new list and
`calTs := now` together.  The `Nat` counts `getEvents` calls. -/
def Config.getCachedCalEvents (env : Env) (c : Config) (now : Time) :
    Except String (List CalEvent) × Config × Nat :=
  if now - c.calTs > 66 * minuteNs then
    match env.getEvents c.CalendarId now with
    | Except.error err => (Except.error err, c, 1)
    | Except.ok evts =>
        (Except.ok evts, { c with calTs := now, CalEvents := evts }, 1)
  else
    (Except.ok c.CalEvents, c, 0)

/-- `updateCachedCalEvents` from the source (the scheduled 10-minute tick
and the `!gcal reload` path).  An unregistered room yields `none` (nil
dereference in Go).  Otherwise: reload prefs (error ignored), fetch; on
fetch failure keep the previous event list and timestamp and return; on
success commit both together. -/
def updateCachedCalEvents (env : Env) (reg : Registry) (roomId : String)
    (now : Time) : Option Registry :=
  match alookup reg roomId with
  | none => none
  | some c =>
      let c1 := (c.LoadFromPrefs env now).1
      match env.getEvents c1.CalendarId now with
      | Except.error _ => some (ainsert reg roomId c1)
      | Except.ok evts =>
          some (ainsert reg roomId { c1 with calTs := now, CalEvents := evts })

/-- `Config.expireCaches` from the source: reset both timestamps to the
zero instant, touching nothing else. -/
def Config.expireCaches (c : Config) : Config :=
  { c with calTs := 0, configTs := 0 }

/-- Go's `now.String()` (e.g. `"2009-11-10 23:00:00 +0000 UTC"`):
abstracted as a rendering of the instant; always non-empty. -/
def timeString (t : Time) : String := "time " ++ toString t

/-- The scan loop of `handleEvt`: first event (in stored order) with
`config.Autoreply && e.Start.Before(now) && e.End.After(now)`; the `break`
after a reply makes it stop at the first match. -/
def findNotify (autoreply : Bool) (now : Time) : List CalEvent → Option CalEvent
  | [] => none
  | e :: rest =>
      if autoreply ∧ e.Start < now ∧ now < e.End then some e
      else findNotify autoreply now rest

/-- Mutable state threaded through a handler call: the registry and the
KV store. -/
structure State where
  reg : Registry
  kv : KV
deriving Repr, DecidableEq

/-- Observable outcome of one `handleEvt` message evaluation.  `fault` is
a Go nil-pointer panic; `errorReply` is the
"Error while getting calendar data" reply; `suppressed` is the silent
return after the spam-key check; `noNotify` is the loop completing with
no reply (no active event, or autoreply disabled). -/
inductive Outcome where
  | fault
  | errorReply (err : String)
  | suppressed
  | notify (msg : String)
  | noNotify
deriving Repr, DecidableEq

/-- Result of one evaluation: the outcome, the new state, whether a config
reload was invoked, and how many `getEvents` fetches ran. -/
structure EvalResult where
  outcome : Outcome
  state : State
  reloaded : Bool
  fetchCount : Nat
deriving Repr, DecidableEq

/-- The decision core of `handleEvt` (the non-command message path, after
the `IsChat` / empty-body / `!`-prefix guards), for a message from
`userId` in `roomId` at instant `now`.  Faithful to the source order:
read both spam keys, resolve the config (possible lazy reload, error
ignored), resolve the events (possible lazy fetch, error replied and
early return), THEN the suppression check, then the scan loop; a reply
writes the user key with a 2-hour TTL and the room key with a 10-minute
TTL. -/
def evaluate (env : Env) (s : State) (roomId userId : String) (now : Time) :
    EvalResult :=
  let userSpamKey := getUserSpamKey roomId userId
  let userTs := GetKV s.kv now userSpamKey
  let roomSpamKey := getRoomSpamKey roomId
  let roomTs := GetKV s.kv now roomSpamKey
  match getCachedConfig env s.reg roomId now with
  | none => ⟨Outcome.fault, s, false, 0⟩
  | some (config, reloaded) =>
    match config.getCachedCalEvents env now with
    | (Except.error err, c1, n) =>
        ⟨Outcome.errorReply err, ⟨ainsert s.reg roomId c1, s.kv⟩, reloaded, n⟩
    | (Except.ok calEvents, c1, n) =>
        let reg2 := ainsert s.reg roomId c1
        if userTs ≠ "" ∨ roomTs ≠ "" then
          ⟨Outcome.suppressed, ⟨reg2, s.kv⟩, reloaded, n⟩
        else
          match findNotify c1.Autoreply now calEvents with
          | some e =>
              let msg := if e.Description = "" then defaultMsgFor e.Name
                         else e.Description
              let kv1 := SetKV s.kv now userSpamKey (timeString now) (2 * hourNs)
              let kv2 := SetKV kv1 now roomSpamKey (timeString now) (10 * minuteNs)
              ⟨Outcome.notify msg, ⟨reg2, kv2⟩, reloaded, n⟩
          | none => ⟨Outcome.noNotify, ⟨reg2, s.kv⟩, reloaded, n⟩

/-- Observable outcome of `handleCommand`. -/
inductive CmdOutcome where
  | fault
  | noop
  | usage
  | status (calAge configAge : Int)
  | expired
  | reloadDone
  | silenced (d : Int)
  | badDuration (e : String)
  | needDuration
deriving Repr, DecidableEq

/-- `handleCommand` from the source, on an already-tokenised body `argv`.
Note that `getCachedConfig` runs BEFORE the subcommand switch, so every
subcommand faults on an unregistered room. -/
def handleCommand (env : Env) (s : State) (roomId : String)
    (argv : List String) (now : Time) : CmdOutcome × State :=
  if argv.head? ≠ some "!gcal" then (CmdOutcome.noop, s)
  else if argv.length < 2 then (CmdOutcome.usage, s)
  else
    match getCachedConfig env s.reg roomId now with
    | none => (CmdOutcome.fault, s)
    | some (config, _) =>
      let s1 : State := ⟨ainsert s.reg roomId config, s.kv⟩
      match argv.get? 1 with
      | some "status" =>
          (CmdOutcome.status (now - config.calTs) (now - config.configTs), s1)
      | some "help" => (CmdOutcome.usage, s1)
      | some "expire" =>
          (CmdOutcome.expired, ⟨ainsert s1.reg roomId config.expireCaches, s1.kv⟩)
      | some "reload" =>
          let reg1 := ainsert s1.reg roomId config.expireCaches
          match updateCachedCalEvents env reg1 roomId now with
          | none => (CmdOutcome.fault, ⟨reg1, s1.kv⟩)
          | some reg2 => (CmdOutcome.reloadDone, ⟨reg2, s1.kv⟩)
      | some "silence" =>
          if argv.length = 3 then
            match env.parseDuration ((argv.get? 2).getD "") with
            | Except.error e => (CmdOutcome.badDuration e, s1)
            | Except.ok d =>
                (CmdOutcome.silenced d,
                  ⟨s1.reg, SetKV s1.kv now (getRoomSpamKey roomId) "-" d⟩)
          else (CmdOutcome.needDuration, s1)
      | _ => (CmdOutcome.noop, s1)

/-! ### Helper lemmas -/

theorem alookup_ainsert_self {α : Type} (l : List (String × α)) (k : String)
    (x : α) : alookup (ainsert l k x) k = some x := by
  induction l with
  | nil => simp [ainsert, alookup]
  | cons hd tl ih =>
      obtain ⟨k', v⟩ := hd
      by_cases h : k' = k <;> simp [ainsert, alookup, h, ih]

theorem alookup_ainsert_ne {α : Type} (l : List (String × α)) (k k' : String)
    (x : α) (h : k ≠ k') : alookup (ainsert l k x) k' = alookup l k' := by
  induction l with
  | nil => simp [ainsert, alookup, h]
  | cons hd tl ih =>
      obtain ⟨k'', v⟩ := hd
      by_cases h2 : k'' = k <;> simp [ainsert, alookup, h2, h, ih]

theorem GetKV_SetKV_self (kv : KV) (now t : Time) (key value : String)
    (ttl : Int) :
    GetKV (SetKV kv now key value ttl) t key =
      if t < now + ttl then value else "" := by
  simp [GetKV, SetKV, alookup_ainsert_self]

theorem GetKV_SetKV_ne (kv : KV) (now t : Time) (key key' value : String)
    (ttl : Int) (h : key ≠ key') :
    GetKV (SetKV kv now key value ttl) t key' = GetKV kv t key' := by
  simp [GetKV, SetKV, alookup_ainsert_ne _ _ _ _ h]

theorem timeString_ne_empty (t : Time) : timeString t ≠ "" := by
  intro h
  have hlen : (timeString t).length = 0 := by rw [h]; rfl
  rw [timeString, String.length_append] at hlen
  have h5 : ("time " : String).length = 5 := rfl
  omega

/-- Reloading the configuration never touches the event cache or its
timestamp. -/
theorem LoadFromPrefs_preserves_cal (env : Env) (now : Time) (c : Config) :
    ((c.LoadFromPrefs env now).1).calTs = c.calTs ∧
    ((c.LoadFromPrefs env now).1).CalEvents = c.CalEvents := by
  refine ⟨?_, ?_⟩ <;>
  · simp only [Config.LoadFromPrefs]
    split
    · split <;> rfl
    · rfl

/-- The user-scoped spam key is never equal to the room-scoped spam key of
the same room (it is strictly longer). -/
theorem userSpamKey_ne_roomSpamKey (a b : String) :
    getUserSpamKey a b ≠ getRoomSpamKey a := by
  intro h
  have hlen := congrArg String.length h
  simp only [getUserSpamKey, getRoomSpamKey, String.length_append] at hlen
  have : ("-" : String).length = 1 := rfl
  omega

/-! ### Test fixtures (shared by witnesses and counterexamples) -/

/-- A calendar event running from minute 1000 to minute 1060. -/
def testEvent : CalEvent :=
  ⟨"standup", "daily sync", 1000 * minuteNs, 1060 * minuteNs⟩

/-- An environment where prefs succeed (autoreply on), the timezone
resolves, the fetch returns `[testEvent]`, and only `"4h"` parses. -/
def testEnv : Env where
  getPref := fun _ key dflt =>
    if key = "calendar-id" then ⟨true, "cal-1", ""⟩
    else if key = "autoreply" then ⟨true, "true", ""⟩
    else ⟨true, dflt, ""⟩
  loadLocation := fun _ => Except.ok ()
  getEvents := fun _ _ => Except.ok [testEvent]
  parseDuration := fun s =>
    if s = "4h" then Except.ok (4 * hourNs) else Except.error "invalid duration"

/-- Like `testEnv` but the calendar fetch always fails. -/
def fetchFailEnv : Env := { testEnv with getEvents := fun _ _ => Except.error "boom" }

/-- Like `testEnv` but the required calendar-id pref is unavailable, so
every `LoadFromPrefs` fails. -/
def prefFailEnv : Env := { testEnv with getPref := fun _ _ _ => ⟨false, "", "pref store down"⟩ }

/-- A registered room whose caches were both refreshed at minute 1030. -/
def testConfig : Config :=
  { RoomId := "room1", CalendarId := "cal-1", Timezone := DefaultTz,
    Autoreply := true, AnnounceStart := false, AnnounceEnd := false,
    CalEvents := [testEvent], configTs := 1030 * minuteNs, calTs := 1030 * minuteNs }

/-! ### Claims -/

/-- C3: the code does NOT return a not-found condition on an unknown room
id — `configCache[roomId]` yields a nil `*Config` which `getCachedConfig`
then dereferences, so Evaluate and the status/expire/reload commands all
fault (panic) on a room with no registry entry. -/
theorem c3_unknown_room_faults (env : Env) (kv : KV) (roomId userId : String)
    (now : Time) :
    (evaluate env ⟨[], kv⟩ roomId userId now).outcome = Outcome.fault ∧
    (handleCommand env ⟨[], kv⟩ roomId ["!gcal", "status"] now).1 = CmdOutcome.fault ∧
    (handleCommand env ⟨[], kv⟩ roomId ["!gcal", "expire"] now).1 = CmdOutcome.fault ∧
    (handleCommand env ⟨[], kv⟩ roomId ["!gcal", "reload"] now).1 = CmdOutcome.fault :=
  ⟨rfl, rfl, rfl, rfl⟩

/-- C10: the spam-key construction is not injective.  The call site builds
the user-scoped key as `getUserSpamKey roomId userId`; the distinct pairs
(userId, roomId) = ("b-c", "a") and ("c", "a-b") share one key, the pair
("u", "r") collides with the room-scoped key of the different room
"r-u", and a suppression record written for the first pair suppresses the
unrelated second pair. -/
theorem c10_spam_key_collisions :
    (("b-c" : String), ("a" : String)) ≠ (("c" : String), ("a-b" : String)) ∧
    getUserSpamKey "a" "b-c" = getUserSpamKey "a-b" "c" ∧
    getUserSpamKey "r" "u" = getRoomSpamKey "r-u" ∧
    ("r-u" : String) ≠ ("r" : String) ∧
    shouldSuppress (SetKV [] 0 (getUserSpamKey "a" "b-c") "marker" (2 * hourNs))
      0 "c" "a-b" = true :=
  ⟨by decide, rfl, rfl, by decide, by decide⟩

/-- C9: `expireCaches` resets exactly the two timestamps to the zero
instant, and an immediately following `evaluate` (at any instant more
than 66 minutes after the zero instant) performs both the synchronous
config reload and the synchronous event fetch. -/
theorem c9_expire_forces_full_refresh (env : Env) (s : State)
    (roomId userId : String) (now : Time) (c : Config)
    (hnow : 66 * minuteNs < now) :
    c.expireCaches = { c with calTs := 0, configTs := 0 } ∧
    (evaluate env ⟨ainsert s.reg roomId c.expireCaches, s.kv⟩ roomId userId now).reloaded
      = true ∧
    (evaluate env ⟨ainsert s.reg roomId c.expireCaches, s.kv⟩ roomId userId now).fetchCount
      = 1 := by
  have hgt : now - (c.expireCaches).configTs > 10 * minuteNs := by
    have h0 : (c.expireCaches).configTs = 0 := rfl
    rw [h0]
    have hm : (0:Int) < minuteNs := by norm_num [minuteNs]
    nlinarith
  have hcfg : getCachedConfig env (ainsert s.reg roomId c.expireCaches) roomId now
      = some (((c.expireCaches).LoadFromPrefs env now).1, true) := by
    simp only [getCachedConfig, alookup_ainsert_self, if_pos hgt]
  have hcalTs : (((c.expireCaches).LoadFromPrefs env now).1).calTs = 0 :=
    (LoadFromPrefs_preserves_cal env now _).1
  have hstale : now - (((c.expireCaches).LoadFromPrefs env now).1).calTs
      > 66 * minuteNs := by
    rw [hcalTs]; linarith
  refine ⟨rfl, ?_, ?_⟩ <;>
  · simp only [evaluate, hcfg, Config.getCachedCalEvents, if_pos hstale]
    rcases henv : env.getEvents (((c.expireCaches).LoadFromPrefs env now).1).CalendarId now
      with err | evts <;>
      simp only [henv] <;>
      first
        | rfl
        | (split <;> first | rfl | (split <;> rfl))

/-- C9 witness: a concrete room expired at minute 1030. -/
theorem c9_expire_forces_full_refresh_witness :
    66 * minuteNs < 1030 * minuteNs ∧
    ((evaluate testEnv ⟨ainsert ([] : Registry) "room1" testConfig.expireCaches, ([] : KV)⟩
        "room1" "u1" (1030 * minuteNs)).reloaded = true ∧
      (evaluate testEnv ⟨ainsert ([] : Registry) "room1" testConfig.expireCaches, ([] : KV)⟩
        "room1" "u1" (1030 * minuteNs)).fetchCount = 1) :=
  ⟨by decide,
    (c9_expire_forces_full_refresh testEnv ⟨[], []⟩ "room1" "u1" (1030 * minuteNs)
      testConfig (by decide)).2⟩

/-- Unfolding of `getCachedConfig` on a registered room. -/
theorem getCachedConfig_of_lookup (env : Env) (reg : Registry) (roomId : String)
    (now : Time) (c : Config) (hc : alookup reg roomId = some c) :
    getCachedConfig env reg roomId now =
      if now - c.configTs > 10 * minuteNs then some ((c.LoadFromPrefs env now).1, true)
      else some (c, false) := by
  simp only [getCachedConfig, hc]

/-- C7: suppression is active iff the user-scoped or the room-scoped key
holds a non-empty value; the `!gcal silence <d>` command writes only the
room-scoped key (sentinel value `"-"`, caller-specified TTL `d`), which
makes `shouldSuppress` true for every user of the room for the whole
duration, regardless of any per-user suppression state. -/
theorem c7_silence_suppresses_whole_room (env : Env) (s : State)
    (roomId userId ds : String) (now t d : Time) (c : Config)
    (hc : alookup s.reg roomId = some c)
    (hd : env.parseDuration ds = Except.ok d)
    (h1 : now ≤ t) (h2 : t < now + d) :
    (shouldSuppress s.kv now userId roomId = true ↔
      (GetKV s.kv now (getUserSpamKey roomId userId) ≠ "" ∨
        GetKV s.kv now (getRoomSpamKey roomId) ≠ "")) ∧
    (handleCommand env s roomId ["!gcal", "silence", ds] now).1
      = CmdOutcome.silenced d ∧
    ((handleCommand env s roomId ["!gcal", "silence", ds] now).2).kv
      = SetKV s.kv now (getRoomSpamKey roomId) "-" d ∧
    shouldSuppress ((handleCommand env s roomId ["!gcal", "silence", ds] now).2).kv
      t userId roomId = true := by
  have hcmd : (handleCommand env s roomId ["!gcal", "silence", ds] now).1
        = CmdOutcome.silenced d ∧
      ((handleCommand env s roomId ["!gcal", "silence", ds] now).2).kv
        = SetKV s.kv now (getRoomSpamKey roomId) "-" d := by
    have hne2 : ¬(["!gcal", "silence", ds].head? ≠ some "!gcal") := by simp
    have hlen : ¬(["!gcal", "silence", ds].length < 2) := by simp
    simp only [handleCommand, if_neg hne2, if_neg hlen,
      getCachedConfig_of_lookup env s.reg roomId now c hc]
    split
    · next heq => split at heq <;> simp_all
    · simp [hd]
  refine ⟨by simp [shouldSuppress], hcmd.1, hcmd.2, ?_⟩
  rw [hcmd.2]
  have hroom : GetKV (SetKV s.kv now (getRoomSpamKey roomId) "-" d) t
      (getRoomSpamKey roomId) = "-" := by
    rw [GetKV_SetKV_self, if_pos h2]
  simp [shouldSuppress, hroom]

/-- C7 witness: silencing room1 for 4 hours suppresses user u1 one hour
later. -/
theorem c7_silence_suppresses_whole_room_witness :
    alookup ([("room1", testConfig)] : Registry) "room1" = some testConfig ∧
    testEnv.parseDuration "4h" = Except.ok (4 * hourNs) ∧
    1030 * minuteNs ≤ 1030 * minuteNs + hourNs ∧
    1030 * minuteNs + hourNs < 1030 * minuteNs + 4 * hourNs ∧
    shouldSuppress
      ((handleCommand testEnv ⟨[("room1", testConfig)], []⟩ "room1"
        ["!gcal", "silence", "4h"] (1030 * minuteNs)).2).kv
      (1030 * minuteNs + hourNs) "u1" "room1" = true :=
  ⟨by decide, rfl, by decide, by decide,
    (c7_silence_suppresses_whole_room testEnv ⟨[("room1", testConfig)], []⟩
      "room1" "u1" "4h" (1030 * minuteNs) (1030 * minuteNs + hourNs)
      (4 * hourNs) testConfig (by decide) rfl (by decide) (by decide)).2.2.2⟩

/-- C8: when an evaluation replies (Notify), the spam keys are written:
the user-scoped key with a 2-hour TTL and the room-scoped key with a
10-minute TTL, both carrying the non-empty rendered timestamp, so
`shouldSuppress` is true immediately afterwards. -/
theorem c8_record_notified (env : Env) (s : State) (roomId userId : String)
    (now : Time) (msg : String)
    (h : (evaluate env s roomId userId now).outcome = Outcome.notify msg) :
    alookup ((evaluate env s roomId userId now).state.kv)
        (getUserSpamKey roomId userId)
      = some ⟨timeString now, now + 2 * hourNs⟩ ∧
    alookup ((evaluate env s roomId userId now).state.kv) (getRoomSpamKey roomId)
      = some ⟨timeString now, now + 10 * minuteNs⟩ ∧
    timeString now ≠ "" ∧
    shouldSuppress ((evaluate env s roomId userId now).state.kv) now userId roomId
      = true := by
  rcases hcc : getCachedConfig env s.reg roomId now with _ | ⟨cfg, b⟩
  · simp only [evaluate, hcc] at h
    exact Outcome.noConfusion h
  · simp only [evaluate, hcc] at h ⊢
    rcases hgc : cfg.getCachedCalEvents env now with ⟨res, c1, n⟩
    rcases res with err | evts
    · simp only [hgc] at h
      exact Outcome.noConfusion h
    · simp only [hgc] at h ⊢
      by_cases hsup : GetKV s.kv now (getUserSpamKey roomId userId) ≠ "" ∨
          GetKV s.kv now (getRoomSpamKey roomId) ≠ ""
      · simp only [if_pos hsup] at h
        exact Outcome.noConfusion h
      · simp only [if_neg hsup] at h ⊢
        rcases hfn : findNotify c1.Autoreply now evts with _ | e
        · simp only [hfn] at h
          exact Outcome.noConfusion h
        · simp only [hfn] at h ⊢
          have hne : getRoomSpamKey roomId ≠ getUserSpamKey roomId userId :=
            (userSpamKey_ne_roomSpamKey roomId userId).symm
          have h10 : now < now + 10 * minuteNs := by norm_num [minuteNs]
          refine ⟨?_, ?_, timeString_ne_empty now, ?_⟩
          · show alookup (SetKV (SetKV s.kv now (getUserSpamKey roomId userId)
                (timeString now) (2 * hourNs)) now (getRoomSpamKey roomId)
                (timeString now) (10 * minuteNs)) (getUserSpamKey roomId userId)
              = some ⟨timeString now, now + 2 * hourNs⟩
            rw [SetKV, alookup_ainsert_ne _ _ _ _ hne, SetKV, alookup_ainsert_self]
          · show alookup (SetKV (SetKV s.kv now (getUserSpamKey roomId userId)
                (timeString now) (2 * hourNs)) now (getRoomSpamKey roomId)
                (timeString now) (10 * minuteNs)) (getRoomSpamKey roomId)
              = some ⟨timeString now, now + 10 * minuteNs⟩
            rw [SetKV, alookup_ainsert_self]
          · have hroom : GetKV (SetKV (SetKV s.kv now (getUserSpamKey roomId userId)
                (timeString now) (2 * hourNs)) now (getRoomSpamKey roomId)
                (timeString now) (10 * minuteNs)) now (getRoomSpamKey roomId)
                = timeString now := by
              rw [GetKV_SetKV_self, if_pos h10]
            simp [shouldSuppress, hroom, timeString_ne_empty now]

/-- C8 witness: a concrete evaluation at minute 1030 inside the test event
replies and records both suppression keys. -/
theorem c8_record_notified_witness :
    (evaluate testEnv ⟨[("room1", testConfig)], []⟩ "room1" "u1"
        (1030 * minuteNs)).outcome = Outcome.notify "daily sync" ∧
    (alookup ((evaluate testEnv ⟨[("room1", testConfig)], []⟩ "room1" "u1"
          (1030 * minuteNs)).state.kv) (getUserSpamKey "room1" "u1")
        = some ⟨timeString (1030 * minuteNs), 1030 * minuteNs + 2 * hourNs⟩ ∧
      alookup ((evaluate testEnv ⟨[("room1", testConfig)], []⟩ "room1" "u1"
          (1030 * minuteNs)).state.kv) (getRoomSpamKey "room1")
        = some ⟨timeString (1030 * minuteNs), 1030 * minuteNs + 10 * minuteNs⟩ ∧
      timeString (1030 * minuteNs) ≠ "" ∧
      shouldSuppress ((evaluate testEnv ⟨[("room1", testConfig)], []⟩ "room1" "u1"
          (1030 * minuteNs)).state.kv) (1030 * minuteNs) "u1" "room1" = true) :=
  ⟨by decide,
    c8_record_notified testEnv ⟨[("room1", testConfig)], []⟩ "room1" "u1"
      (1030 * minuteNs) "daily sync" (by decide)⟩

/-- KV state in which room1 is silenced until minute 2000. -/
def roomSilencedKV : KV := [("gcal-spam-room1", ⟨"-", 2000 * minuteNs⟩)]

/-- A registered room whose event cache is stale (last fetch at minute 900)
but whose config is fresh at minute 1030. -/
def staleCalConfig : Config := { testConfig with calTs := 900 * minuteNs }

/-- A registered room whose config is maximally stale but whose event
cache is fresh and empty. -/
def staleCfgConfig : Config := { testConfig with configTs := 0, CalEvents := [] }

/-- C1 counterexample: at minute 1030, room1 is silenced (suppression is
active), yet because the event cache is stale and the fetch fails, the
evaluation performs a fetch (`fetchCount = 1`) and reports the fetch
error instead of the Suppressed result. -/
theorem c1_suppression_checked_last_cex :
    shouldSuppress roomSilencedKV (1030 * minuteNs) "u1" "room1" = true ∧
    (evaluate fetchFailEnv ⟨[("room1", staleCalConfig)], roomSilencedKV⟩
        "room1" "u1" (1030 * minuteNs)).outcome = Outcome.errorReply "boom" ∧
    (evaluate fetchFailEnv ⟨[("room1", staleCalConfig)], roomSilencedKV⟩
        "room1" "u1" (1030 * minuteNs)).fetchCount = 1 := by
  refine ⟨by decide, by decide, by decide⟩

/-- C1 (amended): the suppression check runs only after the config
resolution and the lazy event refresh; when the event read succeeds, a
suppressed evaluation does return Suppressed (but a reload or fetch may
already have happened, and a fetch error preempts the Suppressed
result). -/
theorem c1_suppressed_when_events_ok (env : Env) (s : State)
    (roomId userId : String) (now : Time) (cfg : Config) (b : Bool)
    (evts : List CalEvent)
    (hcfg : getCachedConfig env s.reg roomId now = some (cfg, b))
    (hok : (cfg.getCachedCalEvents env now).1 = Except.ok evts)
    (hsup : shouldSuppress s.kv now userId roomId = true) :
    (evaluate env s roomId userId now).outcome = Outcome.suppressed := by
  have hsup' : GetKV s.kv now (getUserSpamKey roomId userId) ≠ "" ∨
      GetKV s.kv now (getRoomSpamKey roomId) ≠ "" := by
    simpa [shouldSuppress] using hsup
  rcases hgc : cfg.getCachedCalEvents env now with ⟨res, c1, n⟩
  rcases res with err | evts'
  · rw [hgc] at hok
    exact Except.noConfusion hok
  · simp only [evaluate, hcfg, hgc, if_pos hsup']

/-- C1 witness: a silenced room with a fresh event cache yields
Suppressed. -/
theorem c1_suppressed_when_events_ok_witness :
    getCachedConfig testEnv [("room1", testConfig)] "room1" (1030 * minuteNs)
      = some (testConfig, false) ∧
    (testConfig.getCachedCalEvents testEnv (1030 * minuteNs)).1
      = Except.ok [testEvent] ∧
    shouldSuppress roomSilencedKV (1030 * minuteNs) "u1" "room1" = true ∧
    (evaluate testEnv ⟨[("room1", testConfig)], roomSilencedKV⟩ "room1" "u1"
        (1030 * minuteNs)).outcome = Outcome.suppressed :=
  ⟨by decide, rfl, by decide,
    c1_suppressed_when_events_ok testEnv ⟨[("room1", testConfig)], roomSilencedKV⟩
      "room1" "u1" (1030 * minuteNs) testConfig false [testEvent]
      (by decide) rfl (by decide)⟩

/-- C2 counterexample: at minute 1030 the config of room1 is maximally
stale, the pref store is down so the reload fails, yet the evaluation
result is an ordinary decision (`noNotify`): the reload error is
discarded, not surfaced as a configuration-error. -/
theorem c2_reload_error_ignored_cex :
    (staleCfgConfig.LoadFromPrefs prefFailEnv (1030 * minuteNs)).2.isSome = true ∧
    1030 * minuteNs - staleCfgConfig.configTs > 10 * minuteNs ∧
    (evaluate prefFailEnv ⟨[("room1", staleCfgConfig)], []⟩ "room1" "u1"
        (1030 * minuteNs)).reloaded = true ∧
    (evaluate prefFailEnv ⟨[("room1", staleCfgConfig)], []⟩ "room1" "u1"
        (1030 * minuteNs)).outcome = Outcome.noNotify := by
  refine ⟨by decide, by decide, by decide, by decide⟩

/-- C2 (amended): when `now - configFetchedAt` exceeds 10 minutes the
reload does run synchronously before the decision, but its error is
silently discarded (`getCachedConfig` ignores the `LoadFromPrefs`
return): evaluation proceeds with the possibly-partially-updated config,
and the only error outcome an evaluation can surface is the events fetch
error. -/
theorem c2_stale_config_reload_error_discarded (env : Env) (s : State)
    (roomId userId : String) (now : Time) (c : Config)
    (hc : alookup s.reg roomId = some c)
    (hstale : now - c.configTs > 10 * minuteNs) :
    (evaluate env s roomId userId now).reloaded = true ∧
    (∀ err, (evaluate env s roomId userId now).outcome = Outcome.errorReply err →
      (((c.LoadFromPrefs env now).1).getCachedCalEvents env now).1
        = Except.error err) := by
  have hcfg : getCachedConfig env s.reg roomId now
      = some ((c.LoadFromPrefs env now).1, true) := by
    rw [getCachedConfig_of_lookup env s.reg roomId now c hc, if_pos hstale]
  constructor
  · simp only [evaluate, hcfg]
    rcases hgc : (c.LoadFromPrefs env now).1.getCachedCalEvents env now
      with ⟨res, c1, n⟩
    rcases res with err | evts <;>
      simp only [hgc] <;>
      first
        | rfl
        | (split <;> first | rfl | (split <;> rfl))
  · intro err herr
    rcases hgc : (c.LoadFromPrefs env now).1.getCachedCalEvents env now
      with ⟨res, c1, n⟩
    rcases res with err' | evts
    · simp only [evaluate, hcfg, hgc] at herr
      injection herr with h'
      rw [h']
    · simp only [evaluate, hcfg, hgc] at herr
      by_cases hsup : GetKV s.kv now (getUserSpamKey roomId userId) ≠ "" ∨
          GetKV s.kv now (getRoomSpamKey roomId) ≠ ""
      · simp only [if_pos hsup] at herr
        exact Outcome.noConfusion herr
      · simp only [if_neg hsup] at herr
        rcases hfn : findNotify c1.Autoreply now evts with _ | e <;>
          simp only [hfn] at herr <;>
          exact Outcome.noConfusion herr

/-- C2 witness: the counterexample scenario discharges the amended
theorem's hypotheses concretely. -/
theorem c2_stale_config_reload_error_discarded_witness :
    alookup ([("room1", staleCfgConfig)] : Registry) "room1" = some staleCfgConfig ∧
    1030 * minuteNs - staleCfgConfig.configTs > 10 * minuteNs ∧
    (evaluate prefFailEnv ⟨[("room1", staleCfgConfig)], []⟩ "room1" "u1"
        (1030 * minuteNs)).reloaded = true :=
  ⟨by decide, by decide,
    (c2_stale_config_reload_error_discarded prefFailEnv
      ⟨[("room1", staleCfgConfig)], []⟩ "room1" "u1" (1030 * minuteNs)
      staleCfgConfig (by decide) (by decide)).1⟩

/-- C4: an event refresh either commits the new list together with
`eventsFetchedAt = now`, or — on fetch failure — leaves both the cached
list and the timestamp exactly as they were, on the lazy read path and on
the scheduled tick alike; a failed refresh never empties the cache and
never updates one member of the pair without the other. -/
theorem c4_refresh_pair_atomicity (env : Env) (reg : Registry) (roomId : String)
    (now : Time) (c : Config) (hc : alookup reg roomId = some c) :
    ((∀ err, (c.getCachedCalEvents env now).1 = Except.error err →
        ((c.getCachedCalEvents env now).2.1.calTs = c.calTs ∧
          (c.getCachedCalEvents env now).2.1.CalEvents = c.CalEvents)) ∧
      (((c.getCachedCalEvents env now).2.1.calTs = c.calTs ∧
          (c.getCachedCalEvents env now).2.1.CalEvents = c.CalEvents) ∨
        ((c.getCachedCalEvents env now).2.1.calTs = now ∧
          ∃ evts, env.getEvents c.CalendarId now = Except.ok evts ∧
            (c.getCachedCalEvents env now).2.1.CalEvents = evts))) ∧
    (∃ reg2, updateCachedCalEvents env reg roomId now = some reg2 ∧
      ∃ c2, alookup reg2 roomId = some c2 ∧
        (∀ err,
            env.getEvents ((c.LoadFromPrefs env now).1).CalendarId now
              = Except.error err →
            (c2.calTs = c.calTs ∧ c2.CalEvents = c.CalEvents)) ∧
        (∀ evts,
            env.getEvents ((c.LoadFromPrefs env now).1).CalendarId now
              = Except.ok evts →
            (c2.calTs = now ∧ c2.CalEvents = evts))) := by
  obtain ⟨hpc, hpe⟩ := LoadFromPrefs_preserves_cal env now c
  constructor
  · simp only [Config.getCachedCalEvents]
    by_cases hstale : now - c.calTs > 66 * minuteNs
    · rcases henv : env.getEvents c.CalendarId now with err | evts <;>
        simp [hstale, henv]
    · simp [hstale]
  · simp only [updateCachedCalEvents, hc]
    rcases henv : env.getEvents ((c.LoadFromPrefs env now).1).CalendarId now
      with err | evts
    · refine ⟨_, rfl, _, alookup_ainsert_self reg roomId _, ?_, ?_⟩
      · exact fun _ _ => ⟨hpc, hpe⟩
      · intro evts hevts
        exact Except.noConfusion hevts
    · refine ⟨_, rfl, _, alookup_ainsert_self reg roomId _, ?_, ?_⟩
      · intro err herr
        exact Except.noConfusion herr
      · intro evts' hevts
        injection hevts with h'
        subst h'
        exact ⟨rfl, rfl⟩

/-- C4 witness: concrete failing tick and lazy refresh on a stale room. -/
theorem c4_refresh_pair_atomicity_witness :
    alookup ([("room1", staleCalConfig)] : Registry) "room1" = some staleCalConfig ∧
    ((staleCalConfig.getCachedCalEvents fetchFailEnv (1030 * minuteNs)).2.1.calTs
        = staleCalConfig.calTs ∧
      (staleCalConfig.getCachedCalEvents fetchFailEnv (1030 * minuteNs)).2.1.CalEvents
        = staleCalConfig.CalEvents) :=
  ⟨by decide,
    (c4_refresh_pair_atomicity fetchFailEnv [("room1", staleCalConfig)] "room1"
      (1030 * minuteNs) staleCalConfig (by decide)).1.1 "boom" rfl⟩

/-- C5: on a room whose event cache is older than 66 minutes, an
evaluation makes exactly one synchronous fetch before producing a
decision, and a fetch failure becomes the decision outcome (the
stale-but-present cached list is not silently served). -/
theorem c5_stale_events_fetch_once (env : Env) (s : State)
    (roomId userId : String) (now : Time) (c cfg : Config) (b : Bool)
    (hc : alookup s.reg roomId = some c)
    (hcfg : getCachedConfig env s.reg roomId now = some (cfg, b))
    (hstale : now - c.calTs > 66 * minuteNs) :
    (evaluate env s roomId userId now).fetchCount = 1 ∧
    (∀ err, env.getEvents cfg.CalendarId now = Except.error err →
      (evaluate env s roomId userId now).outcome = Outcome.errorReply err) := by
  have hcalTs : cfg.calTs = c.calTs := by
    rw [getCachedConfig_of_lookup env s.reg roomId now c hc] at hcfg
    split at hcfg <;> injection hcfg with h' <;>
      rw [show cfg = _ from (congrArg Prod.fst h').symm]
    exact (LoadFromPrefs_preserves_cal env now c).1
  have hstale' : now - cfg.calTs > 66 * minuteNs := by rw [hcalTs]; exact hstale
  constructor
  · simp only [evaluate, hcfg, Config.getCachedCalEvents, if_pos hstale']
    rcases henv : env.getEvents cfg.CalendarId now with err | evts <;>
      simp only [henv] <;>
      first
        | rfl
        | (split <;> first | rfl | (split <;> rfl))
  · intro err herr
    simp only [evaluate, hcfg, Config.getCachedCalEvents, if_pos hstale', herr]

/-- C5 witness: a stale room with a failing fetch at minute 1030. -/
theorem c5_stale_events_fetch_once_witness :
    alookup ([("room1", staleCalConfig)] : Registry) "room1" = some staleCalConfig ∧
    getCachedConfig fetchFailEnv [("room1", staleCalConfig)] "room1"
      (1030 * minuteNs) = some (staleCalConfig, false) ∧
    1030 * minuteNs - staleCalConfig.calTs > 66 * minuteNs ∧
    (evaluate fetchFailEnv ⟨[("room1", staleCalConfig)], []⟩ "room1" "u1"
        (1030 * minuteNs)).fetchCount = 1 ∧
    (evaluate fetchFailEnv ⟨[("room1", staleCalConfig)], []⟩ "room1" "u1"
        (1030 * minuteNs)).outcome = Outcome.errorReply "boom" :=
  ⟨by decide, by decide, by decide,
    (c5_stale_events_fetch_once fetchFailEnv ⟨[("room1", staleCalConfig)], []⟩
      "room1" "u1" (1030 * minuteNs) staleCalConfig staleCalConfig false
      (by decide) (by decide) (by decide)).1,
    (c5_stale_events_fetch_once fetchFailEnv ⟨[("room1", staleCalConfig)], []⟩
      "room1" "u1" (1030 * minuteNs) staleCalConfig staleCalConfig false
      (by decide) (by decide) (by decide)).2 "boom" rfl⟩

/-- The scan loop is exactly a first-match search over the stored order
with the strict-interior predicate. -/
theorem findNotify_eq_find (a : Bool) (now : Time) (l : List CalEvent) :
    findNotify a now l
      = l.find? (fun e => decide (a ∧ e.Start < now ∧ now < e.End)) := by
  induction l with
  | nil => rfl
  | cons e rest ih =>
      by_cases h : (a : Prop) ∧ e.Start < now ∧ now < e.End
      · simp [findNotify, List.find?, h]
      · simp [findNotify, List.find?, h, ih]

/-- C6: a fresh, unsuppressed evaluation decides from the first event in
stored order whose interval strictly contains `now` (an event exactly
starting or exactly ending at `now` never satisfies the predicate, so at
`now = End` the outcome is the no-active-event one); at most one notify
fires per evaluation even with overlapping events, for the first match. -/
theorem c6_strict_interior_first_match (env : Env) (s : State)
    (roomId userId : String) (now : Time) (c : Config)
    (hc : alookup s.reg roomId = some c)
    (hcfgFresh : ¬(now - c.configTs > 10 * minuteNs))
    (hcalFresh : ¬(now - c.calTs > 66 * minuteNs))
    (hnosup : shouldSuppress s.kv now userId roomId = false) :
    ((evaluate env s roomId userId now).outcome =
      match c.CalEvents.find?
          (fun e => decide (c.Autoreply ∧ e.Start < now ∧ now < e.End)) with
        | some e => Outcome.notify
            (if e.Description = "" then defaultMsgFor e.Name else e.Description)
        | none => Outcome.noNotify) ∧
    (∀ e : CalEvent, e.Start = now ∨ e.End = now →
      decide (c.Autoreply ∧ e.Start < now ∧ now < e.End) = false) ∧
    (∀ e, c.CalEvents.find?
          (fun e => decide (c.Autoreply ∧ e.Start < now ∧ now < e.End)) = some e →
      c.Autoreply = true ∧ e.Start < now ∧ now < e.End) := by
  have hcfg : getCachedConfig env s.reg roomId now = some (c, false) := by
    rw [getCachedConfig_of_lookup env s.reg roomId now c hc, if_neg hcfgFresh]
  have hgc : c.getCachedCalEvents env now = (Except.ok c.CalEvents, c, 0) := by
    simp only [Config.getCachedCalEvents, if_neg hcalFresh]
  have hsup' : ¬(GetKV s.kv now (getUserSpamKey roomId userId) ≠ "" ∨
      GetKV s.kv now (getRoomSpamKey roomId) ≠ "") := by
    simpa [shouldSuppress] using hnosup
  refine ⟨?_, ?_, ?_⟩
  · rcases hfind : c.CalEvents.find?
        (fun e => decide (c.Autoreply ∧ e.Start < now ∧ now < e.End)) with _ | e <;>
      simp only [evaluate, hcfg, hgc, if_neg hsup', findNotify_eq_find, hfind]
  · rintro e (h | h) <;> simp [h]
  · intro e he
    have := List.find?_some he
    simpa using this

/-- C6 witness: the boundary scenario — the only event ends exactly at
`now`, so the outcome is the no-active-event one. -/
theorem c6_strict_interior_first_match_witness :
    alookup ([("room1", { testConfig with
        CalEvents := [⟨"boundary", "", 1000 * minuteNs, 1030 * minuteNs⟩] })] : Registry)
      "room1" = some { testConfig with
        CalEvents := [⟨"boundary", "", 1000 * minuteNs, 1030 * minuteNs⟩] } ∧
    shouldSuppress ([] : KV) (1030 * minuteNs) "u1" "room1" = false ∧
    (evaluate testEnv ⟨[("room1", { testConfig with
        CalEvents := [⟨"boundary", "", 1000 * minuteNs, 1030 * minuteNs⟩] })], []⟩
      "room1" "u1" (1030 * minuteNs)).outcome = Outcome.noNotify :=
  ⟨by decide, by decide,
    (c6_strict_interior_first_match testEnv
      ⟨[("room1", { testConfig with
          CalEvents := [⟨"boundary", "", 1000 * minuteNs, 1030 * minuteNs⟩] })], []⟩
      "room1" "u1" (1030 * minuteNs)
      { testConfig with
          CalEvents := [⟨"boundary", "", 1000 * minuteNs, 1030 * minuteNs⟩] }
      (by decide) (by decide) (by decide) (by decide)).1⟩

end GCalPlugin
